import Mathlib

/-!
Verification of the batter-statistics aggregation of `app.py`
(`compute_batter_stats`, lines 56-96).

The embedding models one plate-appearance event row by the three columns
that `compute_batter_stats` reads (`Batter`, `BatterTeam`, `PlayResult`);
a missing batter identity (a NaN cell in pandas) is modelled by `none`.
A pandas `DataFrame` of events is modelled as a `List Event`; rational
numbers stand in for the Python floats (all quantities involved are exact
ratios of small integers, so no rounding behaviour is lost).

The statistic helpers `seki`, `dasu`, `countpr`, `BA`, `OBP`, `SA`, `OPS`
are imported in `app.py` from the `baseballmetrics` module, which is not
part of this repository's sources; they are modelled from the spec
(section 4.1 Event Classifier and 4.2 Rate-Stat Calculator), as noted on
each definition.
-/

/-- One plate-appearance event row, restricted to the columns that
`compute_batter_stats` reads.  `batter = none` models a missing batter
identity (a NaN in the `Batter` column). -/
structure Event where
  batter : Option String
  batterTeam : String
  playResult : String
deriving Repr, DecidableEq

/-- Modelled from the spec: `countpr(group, s)` from the missing
`baseballmetrics` module counts the events of the group whose play-result
code exactly equals `s` (spec 4.1 `isOutcomeType`, 4.2 `countOf`). -/
def countpr (g : List Event) (s : String) : Nat :=
  (g.filter (fun e => e.playResult = s)).length

/-- Modelled from the spec: `seki(group)` (plate appearances) from the
missing `baseballmetrics` module; spec 4.1 makes `isPlateAppearance` true
for every supplied row, so the count is the group size. -/
def seki (g : List Event) : Nat := g.length

/-- Play-result codes excluded from at-bats.  Spec 4.1: `isAtBat` is true
except for events coded as Walk or other conventionally-excluded
non-at-bat outcomes (e.g. sacrifice), matching the standard
batting-average convention; the exclusion-set reading (shared by spec
section 7, which keeps unrecognized codes inside the at-bat count) is
used. -/
def nonAtBatCodes : List String := ["Walk", "Sacrifice", "HitByPitch"]

/-- Modelled from the spec: `dasu(group)` (at-bats) from the missing
`baseballmetrics` module counts the events whose code is not in the
exclusion set (spec 4.2 `atBats = count(isAtBat)`). -/
def dasu (g : List Event) : Nat :=
  (g.filter (fun e => ¬ nonAtBatCodes.contains e.playResult)).length

/-- Total hits of a group: singles + doubles + triples + home runs
(spec 4.2 `hits`). -/
def hitCount (g : List Event) : Nat :=
  countpr g "Single" + countpr g "Double" + countpr g "Triple" +
    countpr g "HomeRun"

/-- Modelled from the spec: `BA(group)` (batting average) from the missing
`baseballmetrics` module: hits / at-bats, defined as 0 when at-bats is 0
(spec 4.2 edge-case policy). -/
def BA (g : List Event) : ℚ :=
  if dasu g = 0 then 0 else (hitCount g : ℚ) / (dasu g : ℚ)

/-- Modelled from the spec: `OBP(group, mc)` (on-base percentage) from the
missing `baseballmetrics` module: (hits + walks) / (at-bats + walks), the
flag `mc` selecting whether additional on-base-eligible events
(hit-by-pitch) are included; the default excludes them (spec 4.2).  A zero
denominator yields 0 (spec sections 3 and 7: never a division fault). -/
def OBP (g : List Event) (mc : Bool) : ℚ :=
  let extra := if mc then countpr g "HitByPitch" else 0
  let num := hitCount g + countpr g "Walk" + extra
  let den := dasu g + countpr g "Walk" + extra
  if den = 0 then 0 else (num : ℚ) / (den : ℚ)

/-- Total bases of a group (spec 4.2). -/
def totalBases (g : List Event) : Nat :=
  countpr g "Single" * 1 + countpr g "Double" * 2 + countpr g "Triple" * 3 +
    countpr g "HomeRun" * 4

/-- Modelled from the spec: `SA(group)` (slugging average) from the missing
`baseballmetrics` module: total bases / at-bats, defined as 0 when at-bats
is 0 (spec 4.2 edge-case policy). -/
def SA (g : List Event) : ℚ :=
  if dasu g = 0 then 0 else (totalBases g : ℚ) / (dasu g : ℚ)

/-- Modelled from the spec: `OPS(group)` from the missing `baseballmetrics`
module.  The spec defines OPS three times (sections 3, 4.2 and the
glossary) as on-base percentage plus slugging average, with the default
on-base-percentage configuration; that definitional identity is taken as
authoritative.  (The spec's further claim that zero at-bats forces OPS to
0 is inconsistent with this definition whenever the batter drew a walk,
since then the on-base percentage is positive; see the theorems below.) -/
def OPS (g : List Event) : ℚ := OBP g false + SA g

/-- Line 65 of `app.py`: `df.query('BatterTeam == "TOK"')` keeps exactly
the rows whose team is the fixed string "TOK".  (`reset_index(drop=True)`
only renumbers the positional index and has no effect on a list model.) -/
def tokFilter (df : List Event) : List Event :=
  df.filter (fun e => e.batterTeam = "TOK")

/-- The group keys produced by `df.groupby("Batter")` (line 68): the
distinct non-missing batter identities, in ascending string order (pandas
`groupby` defaults to `sort=True` and drops NaN keys). -/
def batterKeys (df : List Event) : List String :=
  List.insertionSort (· ≤ ·) (df.filterMap (fun e => e.batter)).dedup

/-- The group of events for one batter key: the rows whose `Batter` equals
the key, in input order (pandas `groupby` preserves within-group order). -/
def groupOf (df : List Event) (b : String) : List Event :=
  df.filter (fun e => e.batter = some b)

/-- The stats dict built for one group at lines 74-89 of `app.py`, fields
in insertion order.  Field names transliterate the Japanese column names:
daseki 打席 plate appearances, dasuu 打数 at-bats, anda 安打 hits, tanda 単打
singles, niruida 二塁打 doubles, sanruida 三塁打 triples, honruida 本塁打 home
runs, shikyu 四球 walks, sanshin 三振 strikeouts, daritsu 打率 batting
average, shutsuruiritsu 出塁率 on-base percentage, chodaritsu 長打率 slugging
average. -/
structure StatsRow where
  batter : String
  daseki : Nat
  dasuu : Nat
  anda : Nat
  tanda : Nat
  niruida : Nat
  sanruida : Nat
  honruida : Nat
  shikyu : Nat
  sanshin : Nat
  daritsu : ℚ
  shutsuruiritsu : ℚ
  chodaritsu : ℚ
  ops : ℚ
deriving Repr, DecidableEq

/-- Lines 70-89 of `app.py`: the per-group statistics.  Lines 70-73 bind
`single`..`homerun` once and line 78 sums them for 安打; lines 79-82 call
`countpr` again for the individual columns, with identical results. -/
def makeStats (b : String) (g : List Event) : StatsRow where
  batter := b
  daseki := seki g
  dasuu := dasu g
  anda := countpr g "Single" + countpr g "Double" + countpr g "Triple" +
    countpr g "HomeRun"
  tanda := countpr g "Single"
  niruida := countpr g "Double"
  sanruida := countpr g "Triple"
  honruida := countpr g "HomeRun"
  shikyu := countpr g "Walk"
  sanshin := countpr g "Strikeout"
  daritsu := BA g
  shutsuruiritsu := OBP g false
  chodaritsu := SA g
  ops := OPS g

/-- One output row: the column selection of line 95 fixes this field
order: 打者, 打率, 出塁率, 長打率, OPS, 打席, 打数, 安打, 単打, 二塁打, 三塁打,
本塁打, 四球, 三振. -/
structure OutRow where
  batter : String
  daritsu : ℚ
  shutsuruiritsu : ℚ
  chodaritsu : ℚ
  ops : ℚ
  daseki : Nat
  dasuu : Nat
  anda : Nat
  tanda : Nat
  niruida : Nat
  sanruida : Nat
  honruida : Nat
  shikyu : Nat
  sanshin : Nat
deriving Repr, DecidableEq

/-- The column reordering of line 95. -/
def reorderRow (s : StatsRow) : OutRow where
  batter := s.batter
  daritsu := s.daritsu
  shutsuruiritsu := s.shutsuruiritsu
  chodaritsu := s.chodaritsu
  ops := s.ops
  daseki := s.daseki
  dasuu := s.dasuu
  anda := s.anda
  tanda := s.tanda
  niruida := s.niruida
  sanruida := s.sanruida
  honruida := s.honruida
  shikyu := s.shikyu
  sanshin := s.sanshin

/-- Line 95's `sort_values("OPS", ascending=False)`: pandas computes an
ascending argsort with the default `kind='quicksort'` (numpy introsort)
and reverses it (`nargsort` with `ascending=False`).  Below 16 elements
numpy introsort is an insertion sort, which is stable, so there this
model — a stable ascending sort followed by reversal, OPS ties coming
out in reverse of their pre-sort order — is exact.  At 16 elements or
more introsort is unstable and the true order of OPS ties is
implementation-defined; this model then agrees with the code only up to
the order of equal-OPS rows (the non-increasing sortedness and the
multiset of rows are faithful at every size), and the theorems below
assert the exact row order only under a `length < 16` hypothesis. -/
def sortByOpsDesc (rows : List OutRow) : List OutRow :=
  (List.insertionSort (fun a b => a.ops ≤ b.ops) rows).reverse

/-- The unsorted result rows: one stats row per group key, in group
(ascending-batter) order, reordered into the output column order. -/
def resultRows (filtered : List Event) : List OutRow :=
  (batterKeys filtered).map (fun b => reorderRow (makeStats b (groupOf filtered b)))

/-- Lines 56-96 of `app.py`, `compute_batter_stats`.  When no group
remains after the team filter, `results` is the empty list and
`pd.DataFrame([])` has no columns at all, so the column selection
`result_df[["打者", ...]]` at line 95 raises a `KeyError`; this is
modelled by the `Except.error` branch.  Otherwise the columns are
selected and the frame is sorted descending by OPS. -/
def compute_batter_stats (df : List Event) : Except String (List OutRow) :=
  let filtered := tokFilter df
  let rows := resultRows filtered
  if rows.isEmpty then
    Except.error "KeyError: none of the requested columns are in the empty result frame"
  else
    Except.ok (sortByOpsDesc rows)

/-- State-passing model of `compute_batter_stats` making the pandas heap
explicit, to express what the function does and does not mutate.  The
heap is a list of frames; a frame reference is an index into it.  Line 64
(`df = df.copy()`) allocates a fresh frame holding the same rows; line 65
(`query(...).reset_index(drop=True)`) allocates the filtered frame; both
rebind the local name `df` and neither writes to any existing frame.  The
returned heap is the original heap extended with the two allocations. -/
def compute_batter_stats_heap (r : Nat) (heap : List (List Event)) :
    Except String (List OutRow) × List (List Event) :=
  let dfv := heap.getD r []
  let copied := dfv
  let heap1 := heap ++ [copied]
  let filtered := tokFilter copied
  let heap2 := heap1 ++ [filtered]
  let rows := resultRows filtered
  (if rows.isEmpty then
    Except.error "KeyError: none of the requested columns are in the empty result frame"
  else
    Except.ok (sortByOpsDesc rows), heap2)

/-- The play-result vocabulary named by the spec (section 3) together with
the conventionally-excluded non-at-bat codes; a code outside this list is
"unrecognized" in the sense of spec section 7. -/
def knownCodes : List String :=
  ["Single", "Double", "Triple", "HomeRun", "Walk", "Strikeout",
    "Sacrifice", "HitByPitch"]

/-- A cell value of the output table, used to state the column order of
the output contract. -/
inductive FieldVal where
  | str (s : String)
  | rat (q : ℚ)
  | nat (n : Nat)
deriving DecidableEq

/-- The cells of one output row in column order (the order fixed by
line 95 of `app.py`). -/
def OutRow.fieldList (r : OutRow) : List FieldVal :=
  [FieldVal.str r.batter, FieldVal.rat r.daritsu, FieldVal.rat r.shutsuruiritsu,
    FieldVal.rat r.chodaritsu, FieldVal.rat r.ops, FieldVal.nat r.daseki,
    FieldVal.nat r.dasuu, FieldVal.nat r.anda, FieldVal.nat r.tanda,
    FieldVal.nat r.niruida, FieldVal.nat r.sanruida, FieldVal.nat r.honruida,
    FieldVal.nat r.shikyu, FieldVal.nat r.sanshin]

/-- Example input: a single walk for batter "A" of the configured team; a
group with zero at-bats. -/
def exWalkOnly : List Event := [⟨some "A", "TOK", "Walk"⟩]

/-- The output row of batter "A" of `exTieInput`. -/
def exTieRowA : OutRow := ⟨"A", 1, 1, 1, 2, 1, 1, 1, 1, 0, 0, 0, 0, 0⟩

/-- The scenario of spec section 8: batter "X" with one single, one walk
and one strikeout. -/
def exScenario : List Event :=
  [⟨some "X", "TOK", "Single"⟩, ⟨some "X", "TOK", "Walk"⟩,
    ⟨some "X", "TOK", "Strikeout"⟩]

/-- The single output row of the scenario input: plate appearances 3,
at-bats 2, hits 1, batting average 1/2, on-base percentage 2/3, slugging
1/2, OPS 7/6. -/
def exScenarioRow : OutRow :=
  ⟨"X", 1/2, 2/3, 1/2, 7/6, 3, 2, 1, 1, 0, 0, 0, 1, 1⟩

/-- Example input containing one row for another team: batter "C" never
plays for "TOK". -/
def exMixedInput : List Event :=
  [⟨some "A", "TOK", "Single"⟩, ⟨some "C", "OSA", "Single"⟩]

/-- An event row with an unrecognized play-result code for batter "X". -/
def exUnknownEvent : Event := ⟨some "X", "TOK", "Undefined"⟩

/-! Helper lemmas shared by the claim theorems. -/

instance : IsTrans OutRow (fun a b => a.ops ≤ b.ops) :=
  ⟨fun _ _ _ h₁ h₂ => le_trans h₁ h₂⟩

instance : IsTotal OutRow (fun a b => a.ops ≤ b.ops) :=
  ⟨fun a b => le_total a.ops b.ops⟩

/-- Membership in the team filter unfolded. -/
lemma mem_tokFilter {df : List Event} {e : Event} :
    e ∈ tokFilter df ↔ e ∈ df ∧ e.batterTeam = "TOK" := by
  simp [tokFilter]

/-- A successful run of the aggregation returns exactly the sorted result
rows. -/
lemma compute_ok_eq {df : List Event} {out : List OutRow}
    (h : compute_batter_stats df = Except.ok out) :
    out = sortByOpsDesc (resultRows (tokFilter df)) := by
  by_cases hc : (resultRows (tokFilter df)).isEmpty
  · simp [compute_batter_stats, hc] at h
  · simp [compute_batter_stats, hc] at h
    exact h.symm

/-- The descending OPS sort permutes its input. -/
lemma sortByOpsDesc_perm (rows : List OutRow) : (sortByOpsDesc rows).Perm rows :=
  (List.reverse_perm _).trans (List.perm_insertionSort _ rows)

/-- Membership is preserved by the descending OPS sort. -/
lemma mem_sortByOpsDesc {r : OutRow} {rows : List OutRow} :
    r ∈ sortByOpsDesc rows ↔ r ∈ rows :=
  (sortByOpsDesc_perm rows).mem_iff

/-- The rows produced by the grouping step, characterised. -/
lemma mem_resultRows {r : OutRow} {f : List Event} :
    r ∈ resultRows f ↔
      ∃ b ∈ batterKeys f, r = reorderRow (makeStats b (groupOf f b)) := by
  simp [resultRows, eq_comm]

/-- The group keys are exactly the non-missing batter identities. -/
lemma mem_batterKeys {b : String} {f : List Event} :
    b ∈ batterKeys f ↔ ∃ e ∈ f, e.batter = some b := by
  unfold batterKeys
  rw [(List.perm_insertionSort _ _).mem_iff, List.mem_dedup, List.mem_filterMap]

/-- The group keys contain no duplicates. -/
lemma batterKeys_nodup (f : List Event) : (batterKeys f).Nodup := by
  unfold batterKeys
  exact ((List.perm_insertionSort _ _).nodup_iff).mpr (List.nodup_dedup _)

/-- Projecting the unsorted result rows to their batter gives the keys. -/
lemma resultRows_map_batter (f : List Event) :
    (resultRows f).map OutRow.batter = batterKeys f := by
  unfold resultRows
  rw [List.map_map]
  exact List.map_id (batterKeys f)

/-- The result of the heap-passing model, first component: it agrees with
the pure aggregation of the referenced frame. -/
lemma compute_heap_fst (r : Nat) (heap : List (List Event)) :
    (compute_batter_stats_heap r heap).1 = compute_batter_stats (heap.getD r []) :=
  rfl

/-- The result of the heap-passing model, second component: the original
heap extended by the two frames allocated at lines 64 and 65. -/
lemma compute_heap_snd (r : Nat) (heap : List (List Event)) :
    (compute_batter_stats_heap r heap).2 =
      heap ++ [heap.getD r [], tokFilter (heap.getD r [])] := by
  show (heap ++ [heap.getD r []]) ++ [tokFilter (heap.getD r [])] = _
  rw [List.append_assoc]
  rfl

/-- Dropping the rows with a missing batter identity does not change the
non-missing identities. -/
lemma filterMap_batter_filter_isSome (l : List Event) :
    (l.filter (fun e => e.batter.isSome)).filterMap (fun e => e.batter) =
      l.filterMap (fun e => e.batter) := by
  induction l with
  | nil => rfl
  | cons e t ih =>
    cases hb : e.batter with
    | none => simp [List.filter_cons, List.filterMap_cons, hb, ih]
    | some b => simp [List.filter_cons, List.filterMap_cons, hb, ih]

/-- Dropping the rows with a missing batter identity does not change any
batter's group. -/
lemma groupOf_filter_isSome (l : List Event) (b : String) :
    groupOf (l.filter (fun e => e.batter.isSome)) b = groupOf l b := by
  induction l with
  | nil => rfl
  | cons e t ih =>
    cases hb : e.batter with
    | none => simp [groupOf, List.filter_cons, hb] at ih ⊢; exact ih
    | some b' => simp [groupOf, List.filter_cons, hb] at ih ⊢; rw [ih]

/-- The team filter commutes with dropping missing-batter rows. -/
lemma tokFilter_filter_isSome (df : List Event) :
    tokFilter (df.filter (fun e => e.batter.isSome)) =
      (tokFilter df).filter (fun e => e.batter.isSome) := by
  simp only [tokFilter, List.filter_filter]
  exact List.filter_congr (fun e _ => by rw [Bool.and_comm])

/-- Dropping the rows with a missing batter identity does not change the
group keys. -/
lemma batterKeys_filter_isSome (f : List Event) :
    batterKeys (f.filter (fun e => e.batter.isSome)) = batterKeys f := by
  unfold batterKeys
  rw [filterMap_batter_filter_isSome]

/-- Dropping the rows with a missing batter identity does not change the
result rows. -/
lemma resultRows_filter_isSome (f : List Event) :
    resultRows (f.filter (fun e => e.batter.isSome)) = resultRows f := by
  unfold resultRows
  rw [batterKeys_filter_isSome]
  simp only [groupOf_filter_isSome]

/-! Claim theorems. -/

/-- C1 counterexample: the walk-only group `exWalkOnly` has zero at-bats
and batting and slugging averages 0, but its OPS is 1 (its on-base
percentage), so batting average, slugging average and OPS are not each
0. -/
theorem zero_at_bats_ops_nonzero :
    dasu exWalkOnly = 0 ∧ BA exWalkOnly = 0 ∧ SA exWalkOnly = 0 ∧
      OPS exWalkOnly = 1 ∧
      ¬ (BA exWalkOnly = 0 ∧ SA exWalkOnly = 0 ∧ OPS exWalkOnly = 0) := by
  refine ⟨by decide, ?_, ?_, ?_, ?_⟩ <;> with_unfolding_all decide

/-- C1 (amended): for every batter group with zero at-bats, the batting
average and slugging average are each 0 (not NaN, not a raised fault) and
the OPS equals the on-base percentage, which is 0 exactly when the batter
also has no walk (and no other on-base-eligible event). -/
theorem zero_at_bats_rates (g : List Event) (h : dasu g = 0) :
    BA g = 0 ∧ SA g = 0 ∧ OPS g = OBP g false := by
  refine ⟨?_, ?_, ?_⟩
  · simp [BA, h]
  · simp [SA, h]
  · simp [OPS, SA, h]

/-- Witness for C1 (amended) at the walk-only group. -/
theorem zero_at_bats_rates_witness :
    dasu exWalkOnly = 0 ∧
      (BA exWalkOnly = 0 ∧ SA exWalkOnly = 0 ∧
        OPS exWalkOnly = OBP exWalkOnly false) :=
  ⟨by decide, zero_at_bats_rates exWalkOnly (by decide)⟩

/-- C2: in every successfully aggregated output, each row's hits field
equals the sum of its singles, doubles, triples and home-run fields. -/
theorem hits_eq_sum_of_types (df : List Event) (out : List OutRow)
    (h : compute_batter_stats df = Except.ok out) (r : OutRow) (hr : r ∈ out) :
    r.anda = r.tanda + r.niruida + r.sanruida + r.honruida := by
  have hr' : r ∈ resultRows (tokFilter df) := by
    rw [compute_ok_eq h] at hr
    exact mem_sortByOpsDesc.mp hr
  obtain ⟨b, _, rfl⟩ := mem_resultRows.mp hr'
  rfl

/-- Witness for C2 at the scenario input. -/
theorem hits_eq_sum_of_types_witness :
    compute_batter_stats exScenario = Except.ok [exScenarioRow] ∧
      exScenarioRow ∈ [exScenarioRow] ∧
      exScenarioRow.anda = exScenarioRow.tanda + exScenarioRow.niruida +
        exScenarioRow.sanruida + exScenarioRow.honruida :=
  ⟨by with_unfolding_all rfl, by simp,
    hits_eq_sum_of_types exScenario [exScenarioRow] (by with_unfolding_all rfl)
      exScenarioRow (by simp)⟩

/-- An output row built from a group satisfies the OPS identity by
construction. -/
lemma reorder_make_ops (b : String) (g : List Event) :
    (reorderRow (makeStats b g)).ops =
      (reorderRow (makeStats b g)).shutsuruiritsu +
        (reorderRow (makeStats b g)).chodaritsu := rfl

/-- C3: in every successfully aggregated output, each row's OPS field
equals its on-base-percentage field plus its slugging-average field,
exactly, hence within the 1e-9 tolerance. -/
theorem ops_eq_obp_add_slg (df : List Event) (out : List OutRow)
    (h : compute_batter_stats df = Except.ok out) (r : OutRow) (hr : r ∈ out) :
    r.ops = r.shutsuruiritsu + r.chodaritsu ∧
      |r.ops - (r.shutsuruiritsu + r.chodaritsu)| ≤ 1 / 1000000000 := by
  have hr' : r ∈ resultRows (tokFilter df) := by
    rw [compute_ok_eq h] at hr
    exact mem_sortByOpsDesc.mp hr
  obtain ⟨b, _, rfl⟩ := mem_resultRows.mp hr'
  refine ⟨reorder_make_ops b _, ?_⟩
  rw [reorder_make_ops, sub_self, abs_zero]
  norm_num

/-- Witness for C3 at the scenario input. -/
theorem ops_eq_obp_add_slg_witness :
    compute_batter_stats exScenario = Except.ok [exScenarioRow] ∧
      exScenarioRow ∈ [exScenarioRow] ∧
      (exScenarioRow.ops = exScenarioRow.shutsuruiritsu + exScenarioRow.chodaritsu ∧
        |exScenarioRow.ops - (exScenarioRow.shutsuruiritsu + exScenarioRow.chodaritsu)| ≤
          1 / 1000000000) :=
  ⟨by with_unfolding_all rfl, by simp,
    ops_eq_obp_add_slg exScenario [exScenarioRow] (by with_unfolding_all rfl)
      exScenarioRow (by simp)⟩

/-- C5: every row of a successfully aggregated output belongs to a batter
with at least one event for the configured team "TOK"; contrapositively, a
batter all of whose events are for other teams never appears. -/
theorem output_batter_has_team_event (df : List Event) (out : List OutRow)
    (h : compute_batter_stats df = Except.ok out) (r : OutRow) (hr : r ∈ out) :
    ∃ e ∈ df, e.batterTeam = "TOK" ∧ e.batter = some r.batter := by
  have hr' : r ∈ resultRows (tokFilter df) := by
    rw [compute_ok_eq h] at hr
    exact mem_sortByOpsDesc.mp hr
  obtain ⟨b, hb, rfl⟩ := mem_resultRows.mp hr'
  obtain ⟨e, he, hbe⟩ := mem_batterKeys.mp hb
  obtain ⟨hedf, heteam⟩ := mem_tokFilter.mp he
  exact ⟨e, hedf, heteam, hbe⟩

/-- Witness for C5 at the mixed-team input: batter "C" of team "OSA" is
absent and the only row belongs to "A", who has a "TOK" event. -/
theorem output_batter_has_team_event_witness :
    compute_batter_stats exMixedInput = Except.ok [exTieRowA] ∧
      exTieRowA ∈ [exTieRowA] ∧
      ∃ e ∈ exMixedInput, e.batterTeam = "TOK" ∧ e.batter = some exTieRowA.batter :=
  ⟨by with_unfolding_all rfl, by simp,
    output_batter_has_team_event exMixedInput [exTieRowA]
      (by with_unfolding_all rfl) exTieRowA (by simp)⟩

/-- C6 (code bug): when zero batters remain after the team filter the code
does not return an empty sequence: the results list is empty, so
`pd.DataFrame([])` has no columns and the column selection at line 95
raises a `KeyError`.  Evaluated at the empty input and at an input whose
only row belongs to another team. -/
theorem empty_result_raises_keyerror :
    compute_batter_stats [] =
      Except.error "KeyError: none of the requested columns are in the empty result frame" ∧
      compute_batter_stats [⟨some "C", "OSA", "Single"⟩] =
        Except.error "KeyError: none of the requested columns are in the empty result frame" :=
  ⟨rfl, rfl⟩

/-- C7: every successfully aggregated output has exactly one row per
distinct batter identity (exact string match), a batter appearing exactly
when it has a team event, and each row's cells appear in the contract
order: batter identity, batting average, on-base percentage, slugging
average, OPS, plate appearances, at-bats, hits, singles, doubles,
triples, home runs, walks, strikeouts. -/
theorem one_row_per_batter_field_order (df : List Event) (out : List OutRow)
    (h : compute_batter_stats df = Except.ok out) :
    (out.map OutRow.batter).Nodup ∧
      (∀ b : String, b ∈ out.map OutRow.batter ↔
        ∃ e ∈ df, e.batterTeam = "TOK" ∧ e.batter = some b) ∧
      ∀ r ∈ out,
        r.fieldList =
          [FieldVal.str r.batter,
            FieldVal.rat (BA (groupOf (tokFilter df) r.batter)),
            FieldVal.rat (OBP (groupOf (tokFilter df) r.batter) false),
            FieldVal.rat (SA (groupOf (tokFilter df) r.batter)),
            FieldVal.rat (OPS (groupOf (tokFilter df) r.batter)),
            FieldVal.nat (seki (groupOf (tokFilter df) r.batter)),
            FieldVal.nat (dasu (groupOf (tokFilter df) r.batter)),
            FieldVal.nat (hitCount (groupOf (tokFilter df) r.batter)),
            FieldVal.nat (countpr (groupOf (tokFilter df) r.batter) "Single"),
            FieldVal.nat (countpr (groupOf (tokFilter df) r.batter) "Double"),
            FieldVal.nat (countpr (groupOf (tokFilter df) r.batter) "Triple"),
            FieldVal.nat (countpr (groupOf (tokFilter df) r.batter) "HomeRun"),
            FieldVal.nat (countpr (groupOf (tokFilter df) r.batter) "Walk"),
            FieldVal.nat (countpr (groupOf (tokFilter df) r.batter) "Strikeout")] := by
  have hperm : out.Perm (resultRows (tokFilter df)) := by
    rw [compute_ok_eq h]
    exact sortByOpsDesc_perm _
  have hkeys : (out.map OutRow.batter).Perm (batterKeys (tokFilter df)) := by
    have hm := hperm.map OutRow.batter
    rwa [resultRows_map_batter] at hm
  refine ⟨hkeys.nodup_iff.mpr (batterKeys_nodup _), ?_, ?_⟩
  · intro b
    rw [hkeys.mem_iff, mem_batterKeys]
    constructor
    · rintro ⟨e, he, hbe⟩
      obtain ⟨h1, h2⟩ := mem_tokFilter.mp he
      exact ⟨e, h1, h2, hbe⟩
    · rintro ⟨e, he, ht, hbe⟩
      exact ⟨e, mem_tokFilter.mpr ⟨he, ht⟩, hbe⟩
  · intro r hr
    have hr' : r ∈ resultRows (tokFilter df) := hperm.subset hr
    obtain ⟨b, _, rfl⟩ := mem_resultRows.mp hr'
    rfl

/-- Witness for C7 at the scenario input. -/
theorem one_row_per_batter_field_order_witness :
    compute_batter_stats exScenario = Except.ok [exScenarioRow] ∧
      (([exScenarioRow].map OutRow.batter).Nodup ∧
        (∀ b : String, b ∈ [exScenarioRow].map OutRow.batter ↔
          ∃ e ∈ exScenario, e.batterTeam = "TOK" ∧ e.batter = some b) ∧
        ∀ r ∈ [exScenarioRow],
          r.fieldList =
            [FieldVal.str r.batter,
              FieldVal.rat (BA (groupOf (tokFilter exScenario) r.batter)),
              FieldVal.rat (OBP (groupOf (tokFilter exScenario) r.batter) false),
              FieldVal.rat (SA (groupOf (tokFilter exScenario) r.batter)),
              FieldVal.rat (OPS (groupOf (tokFilter exScenario) r.batter)),
              FieldVal.nat (seki (groupOf (tokFilter exScenario) r.batter)),
              FieldVal.nat (dasu (groupOf (tokFilter exScenario) r.batter)),
              FieldVal.nat (hitCount (groupOf (tokFilter exScenario) r.batter)),
              FieldVal.nat (countpr (groupOf (tokFilter exScenario) r.batter) "Single"),
              FieldVal.nat (countpr (groupOf (tokFilter exScenario) r.batter) "Double"),
              FieldVal.nat (countpr (groupOf (tokFilter exScenario) r.batter) "Triple"),
              FieldVal.nat (countpr (groupOf (tokFilter exScenario) r.batter) "HomeRun"),
              FieldVal.nat (countpr (groupOf (tokFilter exScenario) r.batter) "Walk"),
              FieldVal.nat (countpr (groupOf (tokFilter exScenario) r.batter) "Strikeout")]) :=
  ⟨by with_unfolding_all rfl,
    one_row_per_batter_field_order exScenario [exScenarioRow]
      (by with_unfolding_all rfl)⟩

/-- C8: the aggregation is deterministic and idempotent: running it a
second time, on the same frame reference, over the heap left by the first
run returns the identical result. -/
theorem aggregation_idempotent (r : Nat) (heap : List (List Event))
    (h : r < heap.length) :
    (compute_batter_stats_heap r ((compute_batter_stats_heap r heap).2)).1 =
      (compute_batter_stats_heap r heap).1 := by
  rw [compute_heap_fst, compute_heap_fst, compute_heap_snd]
  congr 1
  exact List.getD_append _ _ _ _ h

/-- Witness for C8 at a one-frame heap holding the scenario input. -/
theorem aggregation_idempotent_witness :
    0 < ([exScenario] : List (List Event)).length ∧
      (compute_batter_stats_heap 0 ((compute_batter_stats_heap 0 [exScenario]).2)).1 =
        (compute_batter_stats_heap 0 [exScenario]).1 :=
  ⟨by decide, aggregation_idempotent 0 [exScenario] (by decide)⟩

/-- C9: the aggregation never mutates its input: every frame existing
before the call — in particular the input frame — is unchanged in the
heap left by the call (the call only appends the two frames it allocates),
and the result is a pure function of the input frame's rows. -/
theorem input_frames_not_mutated (r : Nat) (heap : List (List Event)) :
    ((compute_batter_stats_heap r heap).2).take heap.length = heap ∧
      (compute_batter_stats_heap r heap).1 =
        compute_batter_stats (heap.getD r []) := by
  refine ⟨?_, compute_heap_fst r heap⟩
  rw [compute_heap_snd]
  exact List.take_left heap _

/-- C10: a row whose batter identity is missing is dropped from the
aggregation entirely (removing all such rows leaves the output unchanged),
while a row with an unrecognized play-result code and a batter identity is
still grouped under its batter and still counted toward both plate
appearances and at-bats. -/
theorem malformed_row_policy (df : List Event) (e : Event) (b : String)
    (hteam : e.batterTeam = "TOK") (hb : e.batter = some b)
    (hcode : e.playResult ∉ knownCodes) :
    compute_batter_stats (df.filter (fun x => x.batter.isSome)) =
        compute_batter_stats df ∧
      b ∈ batterKeys (tokFilter (e :: df)) ∧
      seki (groupOf (tokFilter (e :: df)) b) =
        seki (groupOf (tokFilter df) b) + 1 ∧
      dasu (groupOf (tokFilter (e :: df)) b) =
        dasu (groupOf (tokFilter df) b) + 1 := by
  have hres : resultRows (tokFilter (df.filter (fun x => x.batter.isSome))) =
      resultRows (tokFilter df) := by
    rw [tokFilter_filter_isSome, resultRows_filter_isSome]
  have hcons : tokFilter (e :: df) = e :: tokFilter df := by
    simp [tokFilter, List.filter_cons, hteam]
  have hgroup : groupOf (e :: tokFilter df) b = e :: groupOf (tokFilter df) b := by
    simp [groupOf, List.filter_cons, hb]
  have hnab : e.playResult ∉ nonAtBatCodes := by
    intro hm
    apply hcode
    have hsub : ∀ s ∈ nonAtBatCodes, s ∈ knownCodes := by decide
    exact hsub _ hm
  refine ⟨?_, ?_, ?_, ?_⟩
  · simp only [compute_batter_stats, hres]
  · rw [hcons]
    exact mem_batterKeys.mpr ⟨e, by simp, hb⟩
  · rw [hcons, hgroup]
    rfl
  · rw [hcons, hgroup]
    simp [dasu, List.filter_cons, hnab]

/-- Witness for C10: adding a row with the unrecognized code "Undefined"
for batter "X" to the scenario input. -/
theorem malformed_row_policy_witness :
    exUnknownEvent.batterTeam = "TOK" ∧
      exUnknownEvent.batter = some "X" ∧
      exUnknownEvent.playResult ∉ knownCodes ∧
      (compute_batter_stats (exScenario.filter (fun x => x.batter.isSome)) =
          compute_batter_stats exScenario ∧
        "X" ∈ batterKeys (tokFilter (exUnknownEvent :: exScenario)) ∧
        seki (groupOf (tokFilter (exUnknownEvent :: exScenario)) "X") =
          seki (groupOf (tokFilter exScenario) "X") + 1 ∧
        dasu (groupOf (tokFilter (exUnknownEvent :: exScenario)) "X") =
          dasu (groupOf (tokFilter exScenario) "X") + 1) :=
  ⟨rfl, rfl, by decide,
    malformed_row_policy exScenario exUnknownEvent "X" rfl rfl (by decide)⟩
